import Mathlib

/-!
Verification of the Mirror repository's core logic: the natural-language
query parser (`backend/services/nlp_parser.py`), the GitHub repo metric
enrichment (`backend/services/github_service.py`) and the cross-source
trending aggregator (`backend/services/trending_analyzer.py`).

The Python code is embedded shallowly: strings are `List Char`, the
regular expressions of the pattern library are compiled by hand into
character-list matchers (each matcher mirrors one pattern literally;
the patterns involved are simple enough that greedy matching without
backtracking coincides with Python `re` semantics, as argued at each
definition), floats are `ℚ`, raised exceptions are `Except Unit`.
-/

/-! ### Character classes (Python `\s`, `\w`, `\d` on the ASCII fragment) -/

def isWs (c : Char) : Bool :=
  c == ' ' || c == '\t' || c == '\n' || c == '\r' || c.toNat == 11 || c.toNat == 12

def isWd (c : Char) : Bool :=
  c.isAlphanum || c == '_'

def isDg (c : Char) : Bool :=
  c.isDigit

/-! ### Matching primitives

A matcher is anchored at the head of the input and returns
`some (capturedGroup, restAfterMatch)` on success. -/

/-- Match a literal character sequence, returning the rest of the input. -/
def litM : List Char → List Char → Option (List Char)
  | [], cs => some cs
  | _ :: _, [] => none
  | p :: ps, c :: cs => if c = p then litM ps cs else none

/-- Greedy `class*`: split off the maximal prefix satisfying `p`. -/
def takeW (p : Char → Bool) : List Char → List Char × List Char
  | [] => ([], [])
  | c :: cs =>
    if p c then
      let r := takeW p cs
      (c :: r.1, r.2)
    else ([], c :: cs)

/-- Greedy `class+`: at least one character of the class. -/
def take1W (p : Char → Bool) : List Char → Option (List Char × List Char)
  | [] => none
  | c :: cs =>
    if p c then
      let r := takeW p cs
      some (c :: r.1, r.2)
    else none

/-- `class{n}`: exactly `n` characters of the class. -/
def exactN (p : Char → Bool) : Nat → List Char → Option (List Char × List Char)
  | 0, cs => some ([], cs)
  | _ + 1, [] => none
  | n + 1, c :: cs =>
    if p c then
      match exactN p n cs with
      | some (g, r) => some (c :: g, r)
      | none => none
    else none

/-- `x?`: consume the character if present (greedy; in every use below the
continuation cannot start with the same character, so this agrees with `re`). -/
def optC (c : Char) : List Char → List Char
  | [] => []
  | c' :: cs => if c' = c then cs else c' :: cs

/-- Ordered alternation of literals, e.g. `(?:in|after|since)`. -/
def altLits : List (List Char) → List Char → Option (List Char)
  | [], _ => none
  | p :: ps, cs =>
    match litM p cs with
    | some r => some r
    | none => altLits ps cs

/-- `re.search`: try the anchored matcher at every position, leftmost first. -/
def searchM {α : Type} (m : List Char → Option α) : List Char → Option α
  | [] => m []
  | c :: cs =>
    match m (c :: cs) with
    | some x => some x
    | none => searchM m cs

/-- `'pat' in s` (Python substring test). -/
def containsSub (pat : List Char) (cs : List Char) : Bool :=
  (searchM (litM pat) cs).isSome

/-- `re.sub(pat, '', s)` for patterns that cannot match the empty string:
remove every non-overlapping leftmost match.  Fueled; fuel `length + 1`
always suffices since every step consumes at least one character. -/
def subAllF (m : List Char → Option (List Char × List Char)) : Nat → List Char → List Char
  | 0, cs => cs
  | _ + 1, [] => []
  | fuel + 1, c :: cs =>
    match m (c :: cs) with
    | some (_, rest) => subAllF m fuel rest
    | none => c :: subAllF m fuel cs

def subAll (m : List Char → Option (List Char × List Char)) (cs : List Char) : List Char :=
  subAllF m (cs.length + 1) cs

/-- `str.replace(pat, rep)`: replace every non-overlapping leftmost match. -/
def replaceAllF (pat rep : List Char) : Nat → List Char → List Char
  | 0, cs => cs
  | _ + 1, [] => []
  | fuel + 1, c :: cs =>
    match litM pat (c :: cs) with
    | some rest => rep ++ replaceAllF pat rep fuel rest
    | none => c :: replaceAllF pat rep fuel cs

def replaceAll (pat rep cs : List Char) : List Char :=
  replaceAllF pat rep (cs.length + 1) cs

/-- `re.findall` for a single-group pattern: all non-overlapping matches,
left to right, returning the captured groups. -/
def findAllGF (m : List Char → Option (List Char × List Char)) : Nat → List Char → List (List Char)
  | 0, _ => []
  | _ + 1, [] =>
    match m [] with
    | some (g, _) => [g]
    | none => []
  | fuel + 1, c :: cs =>
    match m (c :: cs) with
    | some (g, rest) => g :: findAllGF m fuel rest
    | none => findAllGF m fuel cs

def findAllG (m : List Char → Option (List Char × List Char)) (cs : List Char) : List (List Char) :=
  findAllGF m (cs.length + 1) cs

/-- `re.sub(r'\s+', ' ', s)`: collapse every whitespace run to one space. -/
def collapseGo : Bool → List Char → List Char
  | _, [] => []
  | prevWs, c :: cs =>
    if isWs c then
      if prevWs then collapseGo true cs else ' ' :: collapseGo true cs
    else c :: collapseGo false cs

def collapseWs (cs : List Char) : List Char :=
  collapseGo false cs

/-- Python `str.strip()`. -/
def lstripWs (cs : List Char) : List Char :=
  (takeW isWs cs).2

def stripWs (cs : List Char) : List Char :=
  (lstripWs (lstripWs cs).reverse).reverse

/-- `int(...)` on a captured `\d+` group. -/
def digitsVal (ds : List Char) : Nat :=
  ds.foldl (fun a c => 10 * a + (c.toNat - ('0').toNat)) 0

def digitsToInt (ds : List Char) : Int :=
  Int.ofNat (digitsVal ds)

/-! ### Pattern library (`NLPQueryParser.__init__`)

Each Python pattern string is compiled to one matcher.  The numeric
pattern groups for stars / forks / contributors differ only in the noun,
exactly as in the source, so they share one parametrised definition. -/

/-- `more than (\d+)\s*NOUNs?` -/
def numPat1 (noun : List Char) (cs : List Char) : Option (List Char × List Char) := do
  let r ← litM ("more than ".toList) cs
  let (g, r) ← take1W isDg r
  let r := (takeW isWs r).2
  let r ← litM noun r
  pure (g, optC 's' r)

/-- `(\d+)\s*\+?\s*NOUNs?` -/
def numPat2 (noun : List Char) (cs : List Char) : Option (List Char × List Char) := do
  let (g, r) ← take1W isDg cs
  let r := (takeW isWs r).2
  let r := optC '+' r
  let r := (takeW isWs r).2
  let r ← litM noun r
  pure (g, optC 's' r)

/-- `at least (\d+)\s*NOUNs?` -/
def numPat3 (noun : List Char) (cs : List Char) : Option (List Char × List Char) := do
  let r ← litM ("at least ".toList) cs
  let (g, r) ← take1W isDg r
  let r := (takeW isWs r).2
  let r ← litM noun r
  pure (g, optC 's' r)

/-- `minimum (\d+)\s*NOUNs?` -/
def numPat4 (noun : List Char) (cs : List Char) : Option (List Char × List Char) := do
  let r ← litM ("minimum ".toList) cs
  let (g, r) ← take1W isDg r
  let r := (takeW isWs r).2
  let r ← litM noun r
  pure (g, optC 's' r)

/-- `(\d+)\s*NOUNs? or more` -/
def numPat5 (noun : List Char) (cs : List Char) : Option (List Char × List Char) := do
  let (g, r) ← take1W isDg cs
  let r := (takeW isWs r).2
  let r ← litM noun r
  let r := optC 's' r
  let r ← litM (" or more".toList) r
  pure (g, r)

def numPats (noun : List Char) : List (List Char → Option (List Char × List Char)) :=
  [numPat1 noun, numPat2 noun, numPat3 noun, numPat4 noun, numPat5 noun]

def star_patterns : List (List Char → Option (List Char × List Char)) :=
  numPats ("star".toList)

def fork_patterns : List (List Char → Option (List Char × List Char)) :=
  numPats ("fork".toList)

def contributor_patterns : List (List Char → Option (List Char × List Char)) :=
  numPats ("contributor".toList)

/-- `in (\w+)` -/
def langPat1 (cs : List Char) : Option (List Char × List Char) := do
  let r ← litM ("in ".toList) cs
  let (g, r) ← take1W isWd r
  pure (g, r)

/-- `(\w+) projects?` -/
def langPat2 (cs : List Char) : Option (List Char × List Char) := do
  let (g, r) ← take1W isWd cs
  let r ← litM (" project".toList) r
  pure (g, optC 's' r)

/-- `(\w+) repositories?` -/
def langPat3 (cs : List Char) : Option (List Char × List Char) := do
  let (g, r) ← take1W isWd cs
  let r ← litM (" repositorie".toList) r
  pure (g, optC 's' r)

/-- `(\w+) code` -/
def langPat4 (cs : List Char) : Option (List Char × List Char) := do
  let (g, r) ← take1W isWd cs
  let r ← litM (" code".toList) r
  pure (g, r)

/-- `(\w+) language` -/
def langPat5 (cs : List Char) : Option (List Char × List Char) := do
  let (g, r) ← take1W isWd cs
  let r ← litM (" language".toList) r
  pure (g, r)

def language_patterns : List (List Char → Option (List Char × List Char)) :=
  [langPat1, langPat2, langPat3, langPat4, langPat5]

/-- `(?:in|after|since) ` (the non-capturing alternation of the date patterns,
followed by the literal space of the pattern). -/
def dateAlt (cs : List Char) : Option (List Char) := do
  let r ← altLits [("in".toList), ("after".toList), ("since".toList)] cs
  litM (" ".toList) r

/-- `created (?:in|after|since) (\d{4})` -/
def datePat1 (cs : List Char) : Option (List Char × List Char) := do
  let r ← litM ("created ".toList) cs
  let r ← dateAlt r
  let (g, r) ← exactN isDg 4 r
  pure (g, r)

/-- `created (?:in|after|since) (\w+ \d{4})` -/
def datePat2 (cs : List Char) : Option (List Char × List Char) := do
  let r ← litM ("created ".toList) cs
  let r ← dateAlt r
  let (w, r) ← take1W isWd r
  let r ← litM (" ".toList) r
  let (d, r) ← exactN isDg 4 r
  pure (w ++ ' ' :: d, r)

/-- `updated (?:in|after|since) (\d{4})` -/
def datePat3 (cs : List Char) : Option (List Char × List Char) := do
  let r ← litM ("updated ".toList) cs
  let r ← dateAlt r
  let (g, r) ← exactN isDg 4 r
  pure (g, r)

/-- `updated (?:in|after|since) (\w+ \d{4})` -/
def datePat4 (cs : List Char) : Option (List Char × List Char) := do
  let r ← litM ("updated ".toList) cs
  let r ← dateAlt r
  let (w, r) ← take1W isWd r
  let r ← litM (" ".toList) r
  let (d, r) ← exactN isDg 4 r
  pure (w ++ ' ' :: d, r)

/-- `from (\d{4})` -/
def datePat5 (cs : List Char) : Option (List Char × List Char) := do
  let r ← litM ("from ".toList) cs
  let (g, r) ← exactN isDg 4 r
  pure (g, r)

/-- `since (\d{4})` -/
def datePat6 (cs : List Char) : Option (List Char × List Char) := do
  let r ← litM ("since ".toList) cs
  let (g, r) ← exactN isDg 4 r
  pure (g, r)

def date_patterns : List (List Char → Option (List Char × List Char)) :=
  [datePat1, datePat2, datePat3, datePat4, datePat5, datePat6]

/-- `(?:-\w+)*` — fueled star; every iteration consumes at least two
characters, so fuel `length` suffices. -/
def dashStar : Nat → List Char → List Char × List Char
  | 0, cs => ([], cs)
  | fuel + 1, cs =>
    match cs with
    | '-' :: rest =>
      match take1W isWd rest with
      | some (w, r) =>
        let r2 := dashStar fuel r
        ('-' :: (w ++ r2.1), r2.2)
      | none => ([], cs)
    | _ => ([], cs)

/-- `(\w+(?:-\w+)*)` -/
def wordDashes (cs : List Char) : Option (List Char × List Char) := do
  let (w, r) ← take1W isWd cs
  let r2 := dashStar r.length r
  pure (w ++ r2.1, r2.2)

/-- `with (\w+(?:-\w+)*)` -/
def topicPat1 (cs : List Char) : Option (List Char × List Char) := do
  let r ← litM ("with ".toList) cs
  wordDashes r

/-- `using (\w+(?:-\w+)*)` -/
def topicPat2 (cs : List Char) : Option (List Char × List Char) := do
  let r ← litM ("using ".toList) cs
  wordDashes r

/-- `(\w+(?:-\w+)*) integration` -/
def topicPat3 (cs : List Char) : Option (List Char × List Char) := do
  let (g, r) ← wordDashes cs
  let r ← litM (" integration".toList) r
  pure (g, r)

/-- `(\w+(?:-\w+)*) support` -/
def topicPat4 (cs : List Char) : Option (List Char × List Char) := do
  let (g, r) ← wordDashes cs
  let r ← litM (" support".toList) r
  pure (g, r)

/-- `(\w+(?:-\w+)*) plugin` -/
def topicPat5 (cs : List Char) : Option (List Char × List Char) := do
  let (g, r) ← wordDashes cs
  let r ← litM (" plugin".toList) r
  pure (g, r)

def topic_patterns : List (List Char → Option (List Char × List Char)) :=
  [topicPat1, topicPat2, topicPat3, topicPat4, topicPat5]

/-- `with issues?` (presence-only matcher; empty group) -/
def boolWithIssues (cs : List Char) : Option (List Char × List Char) := do
  let r ← litM ("with issue".toList) cs
  pure ([], optC 's' r)

/-- `without issues?` -/
def boolWithoutIssues (cs : List Char) : Option (List Char × List Char) := do
  let r ← litM ("without issue".toList) cs
  pure ([], optC 's' r)

/-- `with wiki` -/
def boolWithWiki (cs : List Char) : Option (List Char × List Char) := do
  let r ← litM ("with wiki".toList) cs
  pure ([], r)

/-- `without wiki` -/
def boolWithoutWiki (cs : List Char) : Option (List Char × List Char) := do
  let r ← litM ("without wiki".toList) cs
  pure ([], r)

/-- `archived` -/
def boolArchived (cs : List Char) : Option (List Char × List Char) := do
  let r ← litM ("archived".toList) cs
  pure ([], r)

/-- `not archived` -/
def boolNotArchived (cs : List Char) : Option (List Char × List Char) := do
  let r ← litM ("not archived".toList) cs
  pure ([], r)

/-- `forked` -/
def boolForked (cs : List Char) : Option (List Char × List Char) := do
  let r ← litM ("forked".toList) cs
  pure ([], r)

/-- `not forked` -/
def boolNotForked (cs : List Char) : Option (List Char × List Char) := do
  let r ← litM ("not forked".toList) cs
  pure ([], r)

/-- `original` -/
def boolOriginal (cs : List Char) : Option (List Char × List Char) := do
  let r ← litM ("original".toList) cs
  pure ([], r)

/-! ### `ParsedQuery` and the extraction functions -/

/-- `ParsedQuery` dataclass (`nlp_parser.py`, lines 19-44). -/
structure ParsedQuery where
  base_query : String
  min_stars : Option Int := none
  max_stars : Option Int := none
  min_forks : Option Int := none
  max_forks : Option Int := none
  min_contributors : Option Int := none
  max_contributors : Option Int := none
  language : Option String := none
  created_after : Option String := none
  created_before : Option String := none
  updated_after : Option String := none
  topics : List String := []
  has_issues : Option Bool := none
  has_wiki : Option Bool := none
  is_archived : Option Bool := none
  is_fork : Option Bool := none
  search_in : List String := ["name", "description", "readme", "topics"]
  deriving Repr, DecidableEq

/-- `for pattern in patterns: match = re.search(...); if match: return match.group(1)`. -/
def firstGroup : List (List Char → Option (List Char × List Char)) → List Char → Option (List Char)
  | [], _ => none
  | p :: ps, cs =>
    match searchM p cs with
    | some (g, _) => some g
    | none => firstGroup ps cs

/-- `_extract_min_stars` -/
def extract_min_stars (q : List Char) : Option Int :=
  (firstGroup star_patterns q).map digitsToInt

/-- `_extract_min_forks` -/
def extract_min_forks (q : List Char) : Option Int :=
  (firstGroup fork_patterns q).map digitsToInt

/-- `_extract_min_contributors` -/
def extract_min_contributors (q : List Char) : Option Int :=
  (firstGroup contributor_patterns q).map digitsToInt

/-- The `lang_map` alias table of `_extract_language`. -/
def lang_map : List (String × String) :=
  [("js", "javascript"), ("ts", "typescript"), ("py", "python"), ("rb", "ruby"),
   ("php", "php"), ("java", "java"), ("cpp", "c++"), ("csharp", "c#"),
   ("go", "go"), ("rust", "rust"), ("swift", "swift"), ("kotlin", "kotlin"),
   ("scala", "scala")]

/-- `_extract_language` -/
def extract_language (q : List Char) : Option String :=
  (firstGroup language_patterns q).map fun g =>
    let lang := String.mk (g.map Char.toLower)
    match lang_map.find? (fun p => p.1 == lang) with
    | some p => p.2
    | none => lang

/-- `re.match(r'\d{4}', s)`: the string starts with four digits. -/
def startsD4 (g : List Char) : Bool :=
  (exactN isDg 4 g).isSome

/-- `re.match(r'\w+ \d{4}', s)`. -/
def startsWordYear (g : List Char) : Bool :=
  (do
    let (_, r) ← take1W isWd g
    let r ← litM (" ".toList) r
    let (_, r) ← exactN isDg 4 r
    pure r).isSome

/-- Python `str.split()` (split on whitespace runs, dropping empties). -/
def splitWsGo : List Char → List Char → List (List Char)
  | acc, [] => if acc.isEmpty then [] else [acc.reverse]
  | acc, c :: cs =>
    if isWs c then
      if acc.isEmpty then splitWsGo [] cs else acc.reverse :: splitWsGo [] cs
    else splitWsGo (c :: acc) cs

def splitWs (cs : List Char) : List (List Char) :=
  splitWsGo [] cs

/-- `month_map` of `_extract_created_date`. -/
def month_map : List (String × String) :=
  [("jan", "01"), ("feb", "02"), ("mar", "03"), ("apr", "04"),
   ("may", "05"), ("jun", "06"), ("jul", "07"), ("aug", "08"),
   ("sep", "09"), ("oct", "10"), ("nov", "11"), ("dec", "12")]

/-- The body of `_extract_created_date` after a pattern matched: convert the
captured group to a GitHub date string, or fall through (Python reaches the
end of the `if match:` block without returning and tries the next pattern). -/
def dateResult (g : List Char) : Option String :=
  if startsD4 g then
    some (String.mk (g ++ ("-01-01".toList)))
  else if startsWordYear g then
    match splitWs g with
    | [monthPart, yearPart] =>
      let key := String.mk ((monthPart.take 3).map Char.toLower)
      let month_num :=
        match month_map.find? (fun p => p.1 == key) with
        | some p => p.2
        | none => "01"
      some (String.mk (yearPart ++ '-' :: (month_num.toList ++ ("-01".toList))))
    | _ => none
  else none

/-- The pattern loop of `_extract_created_date`. -/
def dateLoop : List (List Char → Option (List Char × List Char)) → List Char → Option String
  | [], _ => none
  | p :: ps, cs =>
    match searchM p cs with
    | some (g, _) =>
      match dateResult g with
      | some s => some s
      | none => dateLoop ps cs
    | none => dateLoop ps cs

/-- `_extract_created_date` -/
def extract_created_date (q : List Char) : Option String :=
  dateLoop date_patterns q

/-- `_extract_updated_date`: rescans after `query.replace('created', 'updated')`. -/
def extract_updated_date (q : List Char) : Option String :=
  extract_created_date (replaceAll ("created".toList) ("updated".toList) q)

/-- `_extract_topics`: all groups of all topic patterns, first-seen order,
duplicates dropped. -/
def extract_topics (q : List Char) : List String :=
  topic_patterns.foldl
    (fun acc p =>
      (findAllG p q).foldl
        (fun acc g =>
          let s := String.mk g
          if acc.contains s then acc else acc ++ [s])
        acc)
    []

/-- `_extract_search_scope` -/
def extract_search_scope (q : List Char) : List String :=
  if containsSub ("name only".toList) q || containsSub ("title only".toList) q then
    ["name"]
  else if containsSub ("description only".toList) q then
    ["description"]
  else if containsSub ("readme only".toList) q then
    ["readme"]
  else if containsSub ("topics only".toList) q then
    ["topics"]
  else
    ["name", "description", "readme", "topics"]

/-- The `boolean_patterns` loop of `parse_query` (lines 147-149): each
matching pattern sets its flag, later entries overwrite earlier ones. -/
structure BoolFlags where
  has_issues : Option Bool := none
  has_wiki : Option Bool := none
  is_archived : Option Bool := none
  is_fork : Option Bool := none
  deriving Repr, DecidableEq

def apply_boolean_patterns (q : List Char) : BoolFlags :=
  let f : BoolFlags := {}
  let f := if (searchM boolWithIssues q).isSome then { f with has_issues := some true } else f
  let f := if (searchM boolWithoutIssues q).isSome then { f with has_issues := some false } else f
  let f := if (searchM boolWithWiki q).isSome then { f with has_wiki := some true } else f
  let f := if (searchM boolWithoutWiki q).isSome then { f with has_wiki := some false } else f
  let f := if (searchM boolArchived q).isSome then { f with is_archived := some true } else f
  let f := if (searchM boolNotArchived q).isSome then { f with is_archived := some false } else f
  let f := if (searchM boolForked q).isSome then { f with is_fork := some true } else f
  let f := if (searchM boolNotForked q).isSome then { f with is_fork := some false } else f
  let f := if (searchM boolOriginal q).isSome then { f with is_fork := some false } else f
  f

/-- The ordered substitution list of `_extract_base_query` (lines 159-204). -/
def base_query_subs : List (List Char → Option (List Char × List Char)) :=
  numPats ("star".toList) ++ numPats ("fork".toList) ++ numPats ("contributor".toList) ++
  [langPat1, langPat2, langPat3, langPat4, langPat5] ++
  [datePat1, datePat2, datePat3, datePat4, datePat5, datePat6] ++
  [topicPat1, topicPat2, topicPat3, topicPat4, topicPat5] ++
  [boolWithIssues, boolWithoutIssues, boolWithWiki, boolWithoutWiki,
   boolArchived, boolNotArchived, boolForked, boolNotForked, boolOriginal]

/-- `^(repos?|repositories?|projects?|code)\s+` — alternatives in the order
Python's backtracking tries them (greedy optional plural first). -/
def fillerAlt : List (List Char) :=
  [("repos".toList), ("repo".toList), ("repositories".toList), ("repositorie".toList),
   ("projects".toList), ("project".toList), ("code".toList)]

def firstSomeL {α : Type} : List (Option α) → Option α
  | [] => none
  | some x :: _ => some x
  | none :: rest => firstSomeL rest

def stripLeadFiller (cs : List Char) : List Char :=
  match firstSomeL (fillerAlt.map fun w => do
    let r ← litM w cs
    let (_, r) ← take1W isWs r
    pure r) with
  | some rest => rest
  | none => cs

/-- `re.sub(r'\s+(repos?|repositories?|projects?|code)$', '', q)`: drop a
final filler word together with the maximal whitespace run before it. -/
def stripTrailFiller (cs : List Char) : List Char :=
  let rev := cs.reverse
  match firstSomeL (fillerAlt.map fun w => do
    let r ← litM w.reverse rev
    let (_, r) ← take1W isWs r
    pure r) with
  | some rest => rest.reverse
  | none => cs

/-- `_extract_base_query` -/
def extract_base_query (q : List Char) : String :=
  let q := base_query_subs.foldl (fun cs m => subAll m cs) q
  let q := stripWs (collapseWs q)
  let q := stripLeadFiller q
  let q := stripTrailFiller q
  String.mk (stripWs q)

/-- `NLPQueryParser.parse_query` (lines 120-154). -/
def parse_query (query : String) : ParsedQuery :=
  let q := stripWs (query.toList.map Char.toLower)
  let flags := apply_boolean_patterns q
  { base_query := extract_base_query q
    min_stars := extract_min_stars q
    min_forks := extract_min_forks q
    min_contributors := extract_min_contributors q
    language := extract_language q
    created_after := extract_created_date q
    updated_after := extract_updated_date q
    topics := extract_topics q
    has_issues := flags.has_issues
    has_wiki := flags.has_wiki
    is_archived := flags.is_archived
    is_fork := flags.is_fork
    search_in := extract_search_scope q }

/-! ### `build_github_query` (lines 316-366)

Python truthiness drives every conditional: `if parsed.min_stars:` is false
for both `None` and `0`; `if parsed.language:` is false for `None` and `""`. -/

def truthyInt (o : Option Int) : Bool :=
  match o with
  | some v => v != 0
  | none => false

def truthyStr (o : Option String) : Bool :=
  match o with
  | some s => s != ""
  | none => false

def build_github_query (parsed : ParsedQuery) : String :=
  let query_parts : List String :=
    (if parsed.base_query != "" then [parsed.base_query] else []) ++
    (if truthyStr parsed.language then ["language:" ++ parsed.language.getD ""] else []) ++
    (if truthyInt parsed.min_stars then ["stars:>=" ++ toString (parsed.min_stars.getD 0)] else []) ++
    (if truthyInt parsed.max_stars then ["stars:<=" ++ toString (parsed.max_stars.getD 0)] else []) ++
    (if truthyInt parsed.min_forks then ["forks:>=" ++ toString (parsed.min_forks.getD 0)] else []) ++
    (if truthyInt parsed.max_forks then ["forks:<=" ++ toString (parsed.max_forks.getD 0)] else []) ++
    (if truthyInt parsed.min_contributors then ["contributors:>=" ++ toString (parsed.min_contributors.getD 0)] else []) ++
    (if truthyInt parsed.max_contributors then ["contributors:<=" ++ toString (parsed.max_contributors.getD 0)] else []) ++
    (if truthyStr parsed.created_after then ["created:>=" ++ parsed.created_after.getD ""] else []) ++
    (if truthyStr parsed.updated_after then ["pushed:>=" ++ parsed.updated_after.getD ""] else []) ++
    (match parsed.has_issues with
     | some b => [if b then "has:issues" else "no:issues"]
     | none => []) ++
    (match parsed.has_wiki with
     | some b => [if b then "has:wiki" else "no:wiki"]
     | none => []) ++
    (match parsed.is_archived with
     | some b => if b then ["archived:true"] else ["archived:false"]
     | none => []) ++
    (match parsed.is_fork with
     | some b => if b then ["fork:true"] else ["fork:false"]
     | none => []) ++
    parsed.topics.map (fun t => "topic:" ++ t)
  String.intercalate " " query_parts

/-! ### Data model (`backend/models/trending.py`)

Timestamps are modelled at day resolution as integers (the code only ever
uses `(datetime.utcnow() - t).days`); floats are `ℚ`. -/

inductive PlatformType where
  | github
  | twitter
  | reddit
  deriving Repr, DecidableEq, BEq

structure GitHubRepo where
  name : String := ""
  full_name : String := ""
  description : Option String := none
  html_url : String := ""
  stargazers_count : Nat := 0
  forks_count : Nat := 0
  language : Option String := none
  topics : List String := []
  created_at : Int := 0
  updated_at : Int := 0
  open_issues_count : Nat := 0
  contributors_count : Option Nat := none
  commits_count : Option Nat := none
  tech_stack : List String := []
  deriving Repr, DecidableEq

structure TwitterPost where
  id : String := ""
  text : String := ""
  author_id : String := ""
  author_username : String := ""
  created_at : Int := 0
  retweet_count : Nat := 0
  like_count : Nat := 0
  reply_count : Nat := 0
  quote_count : Nat := 0
  hashtags : List String := []
  mentions : List String := []
  deriving Repr, DecidableEq

structure RedditPost where
  id : String := ""
  title : String := ""
  selftext : String := ""
  author : String := ""
  subreddit : String := ""
  score : Int := 0
  upvote_ratio : ℚ := 0
  num_comments : Nat := 0
  created_utc : Int := 0
  url : String := ""
  is_self : Bool := false
  domain : String := ""
  deriving Repr, DecidableEq

/-- A fetched item.  The result-assignment loop of `analyze_trending_topic`
is keyed by gather index, not by platform, so a platform's data field can
end up holding items of another platform's type; Python's dynamic typing is
modelled by this sum. -/
inductive FetchItem where
  | gh (r : GitHubRepo)
  | tw (t : TwitterPost)
  | rd (p : RedditPost)
  deriving Repr, DecidableEq

/-- `TrendingTopic` (pydantic model; `github_data`/`twitter_data`/`reddit_data`
default to `[]`; pydantic does not validate plain attribute assignment, so a
mis-typed list is stored as-is). -/
structure TrendingTopic where
  topic : String
  query : String
  platforms : List PlatformType
  github_data : List FetchItem := []
  twitter_data : List FetchItem := []
  reddit_data : List FetchItem := []
  overall_score : Option ℚ := none
  deriving Repr, DecidableEq

/-! ### Attribute access on dynamically typed lists

`sum(post.like_count for post in posts)` raises `AttributeError` at the
first item lacking the attribute; the raise is modelled as `Except.error`. -/

def ghStars : FetchItem → Option Nat
  | .gh r => some r.stargazers_count
  | _ => none

def ghForks : FetchItem → Option Nat
  | .gh r => some r.forks_count
  | _ => none

/-- `repo.contributors_count or 0` -/
def ghContribOr0 : FetchItem → Option Nat
  | .gh r => some (r.contributors_count.getD 0)
  | _ => none

def twLikes : FetchItem → Option Nat
  | .tw t => some t.like_count
  | _ => none

def twRetweets : FetchItem → Option Nat
  | .tw t => some t.retweet_count
  | _ => none

def twReplies : FetchItem → Option Nat
  | .tw t => some t.reply_count
  | _ => none

def rdScore : FetchItem → Option Int
  | .rd p => some p.score
  | _ => none

def rdComments : FetchItem → Option Nat
  | .rd p => some p.num_comments
  | _ => none

def sumAttrN (f : FetchItem → Option Nat) : List FetchItem → Except Unit Nat
  | [] => .ok 0
  | x :: xs =>
    match f x with
    | none => .error ()
    | some v =>
      match sumAttrN f xs with
      | .ok s => .ok (v + s)
      | .error e => .error e

def sumAttrZ (f : FetchItem → Option Int) : List FetchItem → Except Unit Int
  | [] => .ok 0
  | x :: xs =>
    match f x with
    | none => .error ()
    | some v =>
      match sumAttrZ f xs with
      | .ok s => .ok (v + s)
      | .error e => .error e

/-! ### Per-platform scores (`trending_analyzer.py`, lines 130-182) -/

/-- `_calculate_github_score` -/
def calculate_github_score (repos : List FetchItem) : Except Unit ℚ :=
  if repos.isEmpty then .ok 0 else
    match sumAttrN ghStars repos with
    | .error e => .error e
    | .ok total_stars =>
      match sumAttrN ghForks repos with
      | .error e => .error e
      | .ok total_forks =>
        match sumAttrN ghContribOr0 repos with
        | .error e => .error e
        | .ok total_contributors =>
          let n : ℚ := repos.length
          let avg_stars : ℚ := (total_stars : ℚ) / n
          let avg_forks : ℚ := (total_forks : ℚ) / n
          let avg_contributors : ℚ := (total_contributors : ℚ) / n
          let score := avg_stars * (5 / 10) + avg_forks * (3 / 10) + avg_contributors * (2 / 10)
          .ok (min (score / 1000) 100)

/-- `_calculate_twitter_score` -/
def calculate_twitter_score (posts : List FetchItem) : Except Unit ℚ :=
  if posts.isEmpty then .ok 0 else
    match sumAttrN twLikes posts with
    | .error e => .error e
    | .ok total_likes =>
      match sumAttrN twRetweets posts with
      | .error e => .error e
      | .ok total_retweets =>
        match sumAttrN twReplies posts with
        | .error e => .error e
        | .ok total_replies =>
          let total_engagement := total_likes + total_retweets + total_replies
          let avg_engagement : ℚ := (total_engagement : ℚ) / (posts.length : ℚ)
          .ok (min (avg_engagement / 100) 100)

/-- `_calculate_reddit_score` -/
def calculate_reddit_score (posts : List FetchItem) : Except Unit ℚ :=
  if posts.isEmpty then .ok 0 else
    match sumAttrZ rdScore posts with
    | .error e => .error e
    | .ok total_score =>
      match sumAttrN rdComments posts with
      | .error e => .error e
      | .ok total_comments =>
        let avg_score : ℚ := (total_score : ℚ) / (posts.length : ℚ)
        let avg_comments : ℚ := (total_comments : ℚ) / (posts.length : ℚ)
        let score := avg_score * (7 / 10) + avg_comments * (3 / 10)
        .ok (min (score / 100) 100)

/-- One accumulation step of `_calculate_overall_score`: if the platform's
data list is non-empty, add `score * weight` and `weight` to the running
`(score, total_weight)` pair; a raised score error propagates. -/
def scoreStep (data : List FetchItem) (scoreFn : List FetchItem → Except Unit ℚ)
    (weight : ℚ) (acc : ℚ × ℚ) : Except Unit (ℚ × ℚ) :=
  if data.isEmpty then .ok acc else
    match scoreFn data with
    | .error e => .error e
    | .ok s => .ok (acc.1 + s * weight, acc.2 + weight)

/-- `_calculate_overall_score` (lines 102-128). -/
def calculate_overall_score (t : TrendingTopic) : Except Unit ℚ :=
  match scoreStep t.github_data calculate_github_score (4 / 10) (0, 0) with
  | .error e => .error e
  | .ok acc =>
    match scoreStep t.twitter_data calculate_twitter_score (35 / 100) acc with
    | .error e => .error e
    | .ok acc =>
      match scoreStep t.reddit_data calculate_reddit_score (25 / 100) acc with
      | .error e => .error e
      | .ok acc => if acc.2 > 0 then .ok (acc.1 / acc.2) else .ok 0

/-! ### The aggregator (`analyze_trending_topic`, lines 21-67)

The per-platform fetches are network calls; their outcomes enter the
embedding as `Except Unit (List FetchItem)` parameters.  `asyncio.gather`
with `return_exceptions=True` returns the task results in dispatch order. -/

def gather_tasks (platforms : List PlatformType)
    (gh tw rd : Except Unit (List FetchItem)) : List (Except Unit (List FetchItem)) :=
  (if platforms.contains PlatformType.github then [gh] else []) ++
  (if platforms.contains PlatformType.twitter then [tw] else []) ++
  (if platforms.contains PlatformType.reddit then [rd] else [])

/-- The result loop (lines 48-58): exceptions are skipped; a successful
result at gather index `i` is stored by comparing `i` against the fixed
positions 0/1/2 of the full three-platform order. -/
def processResults (platforms : List PlatformType) :
    Nat → List (Except Unit (List FetchItem)) → TrendingTopic → TrendingTopic
  | _, [], t => t
  | i, r :: rs, t =>
    let t' :=
      match r with
      | .error _ => t
      | .ok items =>
        if platforms.contains PlatformType.github && i == 0 then
          { t with github_data := items }
        else if platforms.contains PlatformType.twitter && i == 1 then
          { t with twitter_data := items }
        else if platforms.contains PlatformType.reddit && i == 2 then
          { t with reddit_data := items }
        else t
    processResults platforms (i + 1) rs t'

def init_topic (query : String) (platforms : List PlatformType) : TrendingTopic :=
  { topic := query, query := query, platforms := platforms }

/-- `analyze_trending_topic`: build the topic, gather, assign results,
compute the overall score.  An exception from score computation escapes the
outer `try` (which re-raises). -/
def analyze_trending_topic (platforms : List PlatformType)
    (gh tw rd : Except Unit (List FetchItem)) (query : String) :
    Except Unit TrendingTopic :=
  let t := processResults platforms 0 (gather_tasks platforms gh tw rd) (init_topic query platforms)
  match calculate_overall_score t with
  | .error e => .error e
  | .ok s => .ok { t with overall_score := some s }

/-! ### GitHub metric enrichers (`github_service.py`) -/

/-- Python `sorted(..., reverse=True)` with a `(count, stars)` tuple key:
stable descending sort. -/
def lexLeNN (a b : Nat × Nat) : Bool :=
  a.1 < b.1 || (a.1 == b.1 && a.2 ≤ b.2)

structure LangAgg where
  count : Nat
  total_stars : Nat
  total_forks : Nat
  deriving Repr, DecidableEq

structure LangStat where
  language : String
  count : Nat
  total_stars : Nat
  total_forks : Nat
  avg_stars : ℚ
  deriving Repr, DecidableEq

/-- Insertion-ordered dict update (`language_stats[lang] += ...`). -/
def addLang (m : List (String × LangAgg)) (lang : String) (stars forks : Nat) :
    List (String × LangAgg) :=
  match m with
  | [] => [(lang, { count := 1, total_stars := stars, total_forks := forks })]
  | (k, a) :: rest =>
    if k == lang then
      (k, { count := a.count + 1, total_stars := a.total_stars + stars,
            total_forks := a.total_forks + forks }) :: rest
    else (k, a) :: addLang rest lang stars forks

/-- Python truthiness of `repo.language` (an `Optional[str]`). -/
def truthyLang (r : GitHubRepo) : Option String :=
  match r.language with
  | some l => if l == "" then none else some l
  | none => none

/-- `get_trending_languages` (lines 175-208). -/
def get_trending_languages (repos : List GitHubRepo) : List LangStat :=
  let language_stats := repos.foldl
    (fun m r =>
      match truthyLang r with
      | some l => addLang m l r.stargazers_count r.forks_count
      | none => m)
    []
  let sorted_languages := language_stats.mergeSort
    (fun x y => lexLeNN (y.2.count, y.2.total_stars) (x.2.count, x.2.total_stars))
  (sorted_languages.take 10).map fun p =>
    { language := p.1, count := p.2.count, total_stars := p.2.total_stars,
      total_forks := p.2.total_forks,
      avg_stars := (p.2.total_stars : ℚ) / (p.2.count : ℚ) }

structure ContribStat where
  repo_name : String
  score : Nat
  stars : Nat
  forks : Nat
  language : Option String
  deriving Repr, DecidableEq

/-- `get_top_contributors` (lines 210-235): keyed by `full_name`, first
occurrence wins, then stable descending sort by score. -/
def get_top_contributors (repos : List GitHubRepo) : List ContribStat :=
  let contributor_stats := repos.foldl
    (fun m r =>
      match r.contributors_count with
      | some c =>
        if c != 0 then
          if m.any (fun s => s.repo_name == r.full_name) then m
          else m ++ [{ repo_name := r.full_name,
                       score := r.stargazers_count + r.forks_count * 2,
                       stars := r.stargazers_count, forks := r.forks_count,
                       language := r.language }]
        else m
      | none => m)
    ([] : List ContribStat)
  (contributor_stats.mergeSort (fun x y => y.score ≤ x.score)).take 10

/-! ### Twitter metric enricher (`twitter_service.get_engagement_metrics`) -/

structure TwitterMetrics where
  total_posts : Nat
  total_likes : Nat
  total_retweets : Nat
  total_replies : Nat
  total_quotes : Nat
  total_engagement : Nat
  avg_engagement_per_post : ℚ
  trending_hashtags : List (String × Nat)
  likes_ratio : ℚ
  retweets_ratio : ℚ
  replies_ratio : ℚ
  quotes_ratio : ℚ
  deriving Repr, DecidableEq

/-- Insertion-ordered counter dict (`d[k] = d.get(k, 0) + 1`). -/
def bumpCount (m : List (String × Nat)) (k : String) : List (String × Nat) :=
  match m with
  | [] => [(k, 1)]
  | (k', n) :: rest =>
    if k' == k then (k', n + 1) :: rest else (k', n) :: bumpCount rest k

/-- `get_engagement_metrics` (lines 172-213); returns `{}` — modelled as
`none` — on an empty post list. -/
def get_engagement_metrics (posts : List TwitterPost) : Option TwitterMetrics :=
  if posts.isEmpty then none else
    let total_likes := (posts.map (·.like_count)).sum
    let total_retweets := (posts.map (·.retweet_count)).sum
    let total_replies := (posts.map (·.reply_count)).sum
    let total_quotes := (posts.map (·.quote_count)).sum
    let total_engagement := total_likes + total_retweets + total_replies + total_quotes
    let avg : ℚ := (total_engagement : ℚ) / (posts.length : ℚ)
    let hashtag_counts := posts.foldl (fun m p => p.hashtags.foldl bumpCount m) []
    let trending_hashtags := (hashtag_counts.mergeSort (fun x y => y.2 ≤ x.2)).take 10
    let ratio (x : Nat) : ℚ :=
      if total_engagement > 0 then (x : ℚ) / (total_engagement : ℚ) else 0
    some
      { total_posts := posts.length, total_likes, total_retweets, total_replies,
        total_quotes, total_engagement, avg_engagement_per_post := avg,
        trending_hashtags,
        likes_ratio := ratio total_likes, retweets_ratio := ratio total_retweets,
        replies_ratio := ratio total_replies, quotes_ratio := ratio total_quotes }

/-! ### Reddit metric enrichers (`reddit_service.py`) -/

structure SubAgg where
  count : Nat
  total_score : Int
  total_comments : Nat
  upvote_ratio_sum : ℚ
  deriving Repr, DecidableEq

structure SubStats where
  count : Nat
  total_score : Int
  total_comments : Nat
  avg_upvote_ratio : ℚ
  avg_score : ℚ
  avg_comments : ℚ
  deriving Repr, DecidableEq

structure TopPost where
  title : String
  score : Int
  comments : Nat
  subreddit : String
  deriving Repr, DecidableEq

structure RedditMetrics where
  total_posts : Nat
  total_score : Int
  total_comments : Nat
  avg_score_per_post : ℚ
  avg_comments_per_post : ℚ
  avg_upvote_ratio : ℚ
  subreddit_stats : List (String × SubStats)
  top_posts : List TopPost
  most_active_subreddits : List (String × SubStats)
  high_engagement_posts : Nat
  medium_engagement_posts : Nat
  low_engagement_posts : Nat
  deriving Repr, DecidableEq

def addSub (m : List (String × SubAgg)) (sub : String) (score : Int)
    (comments : Nat) (ratio : ℚ) : List (String × SubAgg) :=
  match m with
  | [] => [(sub, { count := 1, total_score := score, total_comments := comments,
                   upvote_ratio_sum := ratio })]
  | (k, a) :: rest =>
    if k == sub then
      (k, { count := a.count + 1, total_score := a.total_score + score,
            total_comments := a.total_comments + comments,
            upvote_ratio_sum := a.upvote_ratio_sum + ratio }) :: rest
    else (k, a) :: addSub rest sub score comments ratio

/-- `get_community_metrics` (lines 143-210); `{}` on empty input is `none`. -/
def get_community_metrics (posts : List RedditPost) : Option RedditMetrics :=
  if posts.isEmpty then none else
    let aggs := posts.foldl
      (fun m p => addSub m p.subreddit p.score p.num_comments p.upvote_ratio) []
    let subreddit_stats : List (String × SubStats) := aggs.map fun p =>
      (p.1, { count := p.2.count, total_score := p.2.total_score,
              total_comments := p.2.total_comments,
              avg_upvote_ratio := p.2.upvote_ratio_sum / (p.2.count : ℚ),
              avg_score := (p.2.total_score : ℚ) / (p.2.count : ℚ),
              avg_comments := (p.2.total_comments : ℚ) / (p.2.count : ℚ) })
    let total_score := (posts.map (·.score)).sum
    let total_comments := (posts.map (·.num_comments)).sum
    let avg_upvote_ratio := (posts.map (·.upvote_ratio)).sum / (posts.length : ℚ)
    let top_posts := ((posts.mergeSort (fun x y => y.score ≤ x.score)).take 5).map
      fun p => ({ title := p.title, score := p.score, comments := p.num_comments,
                  subreddit := p.subreddit } : TopPost)
    let most_active := (subreddit_stats.mergeSort (fun x y => y.2.count ≤ x.2.count)).take 5
    some
      { total_posts := posts.length, total_score, total_comments,
        avg_score_per_post := (total_score : ℚ) / (posts.length : ℚ),
        avg_comments_per_post := (total_comments : ℚ) / (posts.length : ℚ),
        avg_upvote_ratio, subreddit_stats, top_posts,
        most_active_subreddits := most_active,
        high_engagement_posts := (posts.filter (fun p => p.score > 100)).length,
        medium_engagement_posts := (posts.filter (fun p => 50 ≤ p.score && p.score ≤ 100)).length,
        low_engagement_posts := (posts.filter (fun p => p.score < 50)).length }

structure KeywordStat where
  keyword : String
  count : Nat
  percentage : ℚ
  deriving Repr, DecidableEq

/-- `re.findall(r'\b\w+\b', text)`: the maximal word-character runs.
Fueled; each step consumes at least one character. -/
def wordRunsF : Nat → List Char → List (List Char)
  | 0, _ => []
  | _ + 1, [] => []
  | fuel + 1, c :: cs =>
    if isWd c then
      let r := takeW isWd cs
      (c :: r.1) :: wordRunsF fuel r.2
    else wordRunsF fuel cs

def wordRuns (cs : List Char) : List (List Char) :=
  wordRunsF (cs.length + 1) cs

/-- The stop-word set of `get_trending_keywords`. -/
def common_words : List String :=
  ["the", "a", "an", "and", "or", "but", "in", "on", "at", "to", "for", "of",
   "with", "by", "is", "are", "was", "were", "be", "been", "have", "has", "had",
   "do", "does", "did", "will", "would", "could", "should", "may", "might",
   "can", "this", "that", "these", "those", "i", "you", "he", "she", "it",
   "we", "they", "me", "him", "her", "us", "them", "my", "your", "his",
   "its", "our", "their"]

def isAlphaStr (cs : List Char) : Bool :=
  !cs.isEmpty && cs.all Char.isAlpha

/-- `get_trending_keywords` (lines 212-244). -/
def get_trending_keywords (posts : List RedditPost) : List KeywordStat :=
  let keyword_counts := posts.foldl
    (fun m p =>
      let text := ((p.title ++ " " ++ p.selftext).toList).map Char.toLower
      (wordRuns text).foldl
        (fun m w =>
          let s := String.mk w
          if w.length > 3 && !(common_words.contains s) && isAlphaStr w then
            bumpCount m s
          else m)
        m)
    []
  let trending := (keyword_counts.mergeSort (fun x y => y.2 ≤ x.2)).take 15
  trending.map fun p =>
    { keyword := p.1, count := p.2,
      percentage := ((p.2 : ℚ) / (posts.length : ℚ)) * 100 }

/-! ### The analysis summary (`generate_analysis_summary`, lines 184-243) -/

structure GitHubEng where
  total_stars : Nat
  total_forks : Nat
  avg_stars : ℚ
  deriving Repr, DecidableEq

/-- The per-platform `engagement_metrics` dict (`Dict[str, Any]`): empty, or
one of the three platform-specific shapes. -/
inductive EngMetrics where
  | empty
  | github (g : GitHubEng)
  | twitter (m : TwitterMetrics)
  | reddit (m : RedditMetrics)
  deriving Repr, DecidableEq

structure PlatformStats where
  platform : PlatformType
  total_items : Nat
  top_languages : List LangStat := []
  engagement_metrics : EngMetrics := .empty
  trending_keywords : List String := []
  deriving Repr, DecidableEq

structure EngTrends where
  twitter : Option TwitterMetrics := none
  reddit : Option RedditMetrics := none
  deriving Repr, DecidableEq

structure AnalysisSummary where
  total_repos : Nat
  total_tweets : Nat
  total_reddit_posts : Nat
  top_languages : List LangStat
  top_contributors : List ContribStat
  engagement_trends : EngTrends
  platform_stats : List PlatformStats
  deriving Repr, DecidableEq

/-- Project a dynamically typed item list to repos; a foreign item raises
`AttributeError` as soon as the branch touches a repo attribute. -/
def asRepo : FetchItem → Except Unit GitHubRepo
  | .gh r => .ok r
  | _ => .error ()

def asTweet : FetchItem → Except Unit TwitterPost
  | .tw t => .ok t
  | _ => .error ()

def asRedditPost : FetchItem → Except Unit RedditPost
  | .rd p => .ok p
  | _ => .error ()

def asRepos : List FetchItem → Except Unit (List GitHubRepo)
  | [] => .ok []
  | x :: xs =>
    match asRepo x with
    | .error e => .error e
    | .ok r =>
      match asRepos xs with
      | .error e => .error e
      | .ok rs => .ok (r :: rs)

def asTweets : List FetchItem → Except Unit (List TwitterPost)
  | [] => .ok []
  | x :: xs =>
    match asTweet x with
    | .error e => .error e
    | .ok r =>
      match asTweets xs with
      | .error e => .error e
      | .ok rs => .ok (r :: rs)

def asRedditPosts : List FetchItem → Except Unit (List RedditPost)
  | [] => .ok []
  | x :: xs =>
    match asRedditPost x with
    | .error e => .error e
    | .ok r =>
      match asRedditPosts xs with
      | .error e => .error e
      | .ok rs => .ok (r :: rs)

/-- The GitHub branch of `generate_analysis_summary` (lines 196-213). -/
def summaryGithubStep (t : TrendingTopic) (s : AnalysisSummary) : Except Unit AnalysisSummary :=
  if t.github_data.isEmpty then .ok s else
    match asRepos t.github_data with
    | .error e => .error e
    | .ok repos =>
      let top_languages := get_trending_languages repos
      let top_contributors := get_top_contributors repos
      let total_stars := (repos.map (·.stargazers_count)).sum
      let total_forks := (repos.map (·.forks_count)).sum
      let github_stats : PlatformStats :=
        { platform := PlatformType.github, total_items := t.github_data.length,
          top_languages := top_languages.take 5,
          engagement_metrics := EngMetrics.github
            { total_stars, total_forks,
              avg_stars := (total_stars : ℚ) / (t.github_data.length : ℚ) },
          trending_keywords := repos.filterMap truthyLang }
      .ok { s with top_languages, top_contributors,
                   platform_stats := s.platform_stats ++ [github_stats] }

/-- The Twitter branch of `generate_analysis_summary` (lines 215-227). -/
def summaryTwitterStep (t : TrendingTopic) (s : AnalysisSummary) : Except Unit AnalysisSummary :=
  if t.twitter_data.isEmpty then .ok s else
    match asTweets t.twitter_data with
    | .error e => .error e
    | .ok posts =>
      let twitter_metrics := get_engagement_metrics posts
      let twitter_stats : PlatformStats :=
        { platform := PlatformType.twitter, total_items := t.twitter_data.length,
          engagement_metrics :=
            match twitter_metrics with
            | some m => EngMetrics.twitter m
            | none => EngMetrics.empty,
          trending_keywords :=
            match twitter_metrics with
            | some m => m.trending_hashtags.map Prod.fst
            | none => [] }
      .ok { s with
            engagement_trends := { s.engagement_trends with twitter := twitter_metrics },
            platform_stats := s.platform_stats ++ [twitter_stats] }

/-- The Reddit branch of `generate_analysis_summary` (lines 229-241). -/
def summaryRedditStep (t : TrendingTopic) (s : AnalysisSummary) : Except Unit AnalysisSummary :=
  if t.reddit_data.isEmpty then .ok s else
    match asRedditPosts t.reddit_data with
    | .error e => .error e
    | .ok posts =>
      let reddit_metrics := get_community_metrics posts
      let reddit_stats : PlatformStats :=
        { platform := PlatformType.reddit, total_items := t.reddit_data.length,
          engagement_metrics :=
            match reddit_metrics with
            | some m => EngMetrics.reddit m
            | none => EngMetrics.empty,
          trending_keywords := (get_trending_keywords posts).map (·.keyword) }
      .ok { s with
            engagement_trends := { s.engagement_trends with reddit := reddit_metrics },
            platform_stats := s.platform_stats ++ [reddit_stats] }

/-- `generate_analysis_summary`. -/
def generate_analysis_summary (t : TrendingTopic) : Except Unit AnalysisSummary :=
  let s : AnalysisSummary :=
    { total_repos := t.github_data.length, total_tweets := t.twitter_data.length,
      total_reddit_posts := t.reddit_data.length, top_languages := [],
      top_contributors := [], engagement_trends := {}, platform_stats := [] }
  match summaryGithubStep t s with
  | .error e => .error e
  | .ok s =>
    match summaryTwitterStep t s with
    | .error e => .error e
    | .ok s => summaryRedditStep t s

/-! ### Repo metric enrichment (`github_service.compute_repo_metrics`, lines 95-120) -/

structure RepoMetricsAttempt where
  stars_per_day : ℚ
  stars_per_contributor : Option ℚ
  health_score : ℚ
  deriving Repr, DecidableEq

/-- The metric values the `try` block of `compute_repo_metrics` computes
(lines 98-114): stars per day over the guarded age, optional stars per
contributor, and the health score with guarded divisors. -/
def compute_repo_metrics_attempt (now : Int) (repo : GitHubRepo) : RepoMetricsAttempt :=
  let days_old : Int := max (now - repo.created_at) 1
  let stars_per_day : ℚ := (repo.stargazers_count : ℚ) / (days_old : ℚ)
  let stars_per_contributor : Option ℚ :=
    match repo.contributors_count with
    | some c => if c != 0 then some ((repo.stargazers_count : ℚ) / (c : ℚ)) else none
    | none => none
  let activity_score : ℚ := 1 / ((max (now - repo.updated_at) 1 : Int) : ℚ)
  let issue_penalty : ℚ :=
    (repo.open_issues_count : ℚ) / ((max (repo.stargazers_count + repo.forks_count) 1 : Nat) : ℚ)
  let health_score : ℚ :=
    (repo.stargazers_count : ℚ) * (6 / 10) + (repo.forks_count : ℚ) * (3 / 10) +
      activity_score * 100 - issue_penalty * 50
  { stars_per_day, stars_per_contributor, health_score }

/-- `compute_repo_metrics`: the `try` block's very first statement
`repo.stars_per_day = ...` assigns a field that the pydantic model
`GitHubRepo` (`models/trending.py`) does not declare, so pydantic raises
`ValueError("GitHubRepo" object has no field "stars_per_day")`; the
function's own `except` branch catches it, logs, and returns the repo
unchanged.  None of the computed metrics is ever stored. -/
def compute_repo_metrics (_now : Int) (repo : GitHubRepo) : GitHubRepo :=
  repo

/-! ### Per-platform score values on well-typed data

On a list of items of the platform's own type the score functions cannot
raise; these are the values they return there (same formulas as
`_calculate_*_score`, specialised to the typed lists). -/

def github_score_val (repos : List GitHubRepo) : ℚ :=
  if repos.isEmpty then 0 else
    let total_stars := (repos.map (·.stargazers_count)).sum
    let total_forks := (repos.map (·.forks_count)).sum
    let total_contributors := (repos.map (fun r => r.contributors_count.getD 0)).sum
    let n : ℚ := repos.length
    let score := ((total_stars : ℚ) / n) * (5 / 10) + ((total_forks : ℚ) / n) * (3 / 10) +
      ((total_contributors : ℚ) / n) * (2 / 10)
    min (score / 1000) 100

def twitter_score_val (posts : List TwitterPost) : ℚ :=
  if posts.isEmpty then 0 else
    let total := (posts.map (·.like_count)).sum + (posts.map (·.retweet_count)).sum +
      (posts.map (·.reply_count)).sum
    min (((total : ℚ) / (posts.length : ℚ)) / 100) 100

def reddit_score_val (posts : List RedditPost) : ℚ :=
  if posts.isEmpty then 0 else
    let total_score := (posts.map (·.score)).sum
    let total_comments := (posts.map (·.num_comments)).sum
    let score := ((total_score : ℚ) / (posts.length : ℚ)) * (7 / 10) +
      ((total_comments : ℚ) / (posts.length : ℚ)) * (3 / 10)
    min (score / 100) 100

/-! ### Spec-side rendering (for the refinement comparison)

`render_spec` follows the specification's words: one qualifier token per
populated field — numeric fields included even when the value is `0` — in
the fixed order base text, language, stars, forks, contributors, created
date, updated date, boolean flags, topics.  It is written from the spec,
deliberately not from the code, to be compared against
`build_github_query`. -/

def render_spec (p : ParsedQuery) : String :=
  let parts : List String :=
    (if p.base_query != "" then [p.base_query] else []) ++
    (p.language.map fun l => "language:" ++ l).toList ++
    (p.min_stars.map fun v => "stars:>=" ++ toString v).toList ++
    (p.max_stars.map fun v => "stars:<=" ++ toString v).toList ++
    (p.min_forks.map fun v => "forks:>=" ++ toString v).toList ++
    (p.max_forks.map fun v => "forks:<=" ++ toString v).toList ++
    (p.min_contributors.map fun v => "contributors:>=" ++ toString v).toList ++
    (p.max_contributors.map fun v => "contributors:<=" ++ toString v).toList ++
    (p.created_after.map fun d => "created:>=" ++ d).toList ++
    (p.updated_after.map fun d => "pushed:>=" ++ d).toList ++
    (match p.has_issues with
     | some b => [if b then "has:issues" else "no:issues"]
     | none => []) ++
    (match p.has_wiki with
     | some b => [if b then "has:wiki" else "no:wiki"]
     | none => []) ++
    (match p.is_archived with
     | some b => if b then ["archived:true"] else ["archived:false"]
     | none => []) ++
    (match p.is_fork with
     | some b => if b then ["fork:true"] else ["fork:false"]
     | none => []) ++
    p.topics.map (fun t => "topic:" ++ t)
  String.intercalate " " parts

/-! ### Sample data (used by the witness statements) -/

def sample_repo : GitHubRepo :=
  { name := "r", full_name := "o/r", stargazers_count := 100, forks_count := 20,
    open_issues_count := 5, contributors_count := some 4, language := some "python" }

def sample_tweet : TwitterPost :=
  { id := "1", like_count := 10, retweet_count := 5, reply_count := 2,
    quote_count := 1, hashtags := ["ai", "ml"] }

def sample_rpost : RedditPost :=
  { id := "p", title := "tooling news", selftext := "nice tool", subreddit := "python",
    score := 120, num_comments := 30, upvote_ratio := 9 / 10 }

/-! ## Helper lemmas -/

theorem sumAttrN_map {β : Type} (inj : β → FetchItem) (f : FetchItem → Option Nat)
    (g : β → Nat) (h : ∀ b, f (inj b) = some (g b)) :
    ∀ l : List β, sumAttrN f (l.map inj) = .ok ((l.map g).sum)
  | [] => rfl
  | b :: bs => by
    simp [sumAttrN, h b, sumAttrN_map inj f g h bs]

theorem sumAttrZ_map {β : Type} (inj : β → FetchItem) (f : FetchItem → Option Int)
    (g : β → Int) (h : ∀ b, f (inj b) = some (g b)) :
    ∀ l : List β, sumAttrZ f (l.map inj) = .ok ((l.map g).sum)
  | [] => rfl
  | b :: bs => by
    simp [sumAttrZ, h b, sumAttrZ_map inj f g h bs]

theorem isEmpty_map {α β : Type} (f : α → β) (l : List α) :
    (l.map f).isEmpty = l.isEmpty := by
  cases l <;> rfl

theorem calculate_github_score_map (l : List GitHubRepo) :
    calculate_github_score (l.map FetchItem.gh) = .ok (github_score_val l) := by
  have h1 := sumAttrN_map FetchItem.gh ghStars (fun x => x.stargazers_count) (fun _ => rfl) l
  have h2 := sumAttrN_map FetchItem.gh ghForks (fun x => x.forks_count) (fun _ => rfl) l
  have h3 := sumAttrN_map FetchItem.gh ghContribOr0
    (fun x => x.contributors_count.getD 0) (fun _ => rfl) l
  unfold calculate_github_score github_score_val
  rw [isEmpty_map, h1, h2, h3, List.length_map]
  cases hl : l.isEmpty <;> simp [hl, Function.comp_def]

theorem calculate_twitter_score_map (l : List TwitterPost) :
    calculate_twitter_score (l.map FetchItem.tw) = .ok (twitter_score_val l) := by
  have h1 := sumAttrN_map FetchItem.tw twLikes (fun x => x.like_count) (fun _ => rfl) l
  have h2 := sumAttrN_map FetchItem.tw twRetweets (fun x => x.retweet_count) (fun _ => rfl) l
  have h3 := sumAttrN_map FetchItem.tw twReplies (fun x => x.reply_count) (fun _ => rfl) l
  unfold calculate_twitter_score twitter_score_val
  rw [isEmpty_map, h1, h2, h3, List.length_map]
  cases hl : l.isEmpty <;> simp [hl, Function.comp_def]

theorem calculate_reddit_score_map (l : List RedditPost) :
    calculate_reddit_score (l.map FetchItem.rd) = .ok (reddit_score_val l) := by
  have h1 := sumAttrZ_map FetchItem.rd rdScore (fun x => x.score) (fun _ => rfl) l
  have h2 := sumAttrN_map FetchItem.rd rdComments (fun x => x.num_comments) (fun _ => rfl) l
  unfold calculate_reddit_score reddit_score_val
  rw [isEmpty_map, h1, h2, List.length_map]
  cases hl : l.isEmpty <;> simp [hl, Function.comp_def]

theorem asRepos_map : ∀ l : List GitHubRepo, asRepos (l.map FetchItem.gh) = .ok l
  | [] => rfl
  | r :: rs => by
    simp [asRepos, asRepo, asRepos_map rs]

theorem asTweets_map : ∀ l : List TwitterPost, asTweets (l.map FetchItem.tw) = .ok l
  | [] => rfl
  | r :: rs => by
    simp [asTweets, asTweet, asTweets_map rs]

theorem asRedditPosts_map : ∀ l : List RedditPost, asRedditPosts (l.map FetchItem.rd) = .ok l
  | [] => rfl
  | r :: rs => by
    simp [asRedditPosts, asRedditPost, asRedditPosts_map rs]

theorem processResults_errors (ps : List PlatformType) :
    ∀ (rs : List (Except Unit (List FetchItem))) (i : Nat) (t : TrendingTopic),
      (∀ r ∈ rs, r = .error ()) → processResults ps i rs t = t
  | [], _, _, _ => rfl
  | r :: rs, i, t, h => by
    have hr : r = .error () := h r (by simp)
    subst hr
    simpa [processResults] using
      processResults_errors ps rs (i + 1) t (fun x hx => h x (by simp [hx]))

theorem seg_int (pre : String) (o : Option Int) (h : o ≠ some 0) :
    (if truthyInt o then [pre ++ toString (o.getD 0)] else [])
      = (o.map fun v => pre ++ toString v).toList := by
  rcases o with _ | v
  · rfl
  · have hv : v ≠ 0 := fun hv0 => h (by rw [hv0])
    simp [truthyInt, hv]

theorem seg_str (pre : String) (o : Option String) (h : o ≠ some "") :
    (if truthyStr o then [pre ++ o.getD ""] else [])
      = (o.map fun s => pre ++ s).toList := by
  rcases o with _ | s
  · rfl
  · have hs : s ≠ "" := fun hs0 => h (by rw [hs0])
    simp [truthyStr, hs]

theorem extract_num_nonneg (pats : List (List Char → Option (List Char × List Char)))
    (cs : List Char) (v : Int) (h : (firstGroup pats cs).map digitsToInt = some v) :
    0 ≤ v := by
  rcases hfg : firstGroup pats cs with _ | g <;> rw [hfg] at h <;> simp at h
  rw [← h]
  simp [digitsToInt]

set_option maxRecDepth 20000

/-! ## Claims -/

/-- C2 counterexample: for the query
`"python projects with at least 50 forks created since 2023"` the claimed
parse/render outcome is false — the base query is not empty and the
rendered string is not the claimed one. -/
theorem c2_counterexample :
    ¬((parse_query "python projects with at least 50 forks created since 2023").base_query = ""
      ∧ build_github_query
          (parse_query "python projects with at least 50 forks created since 2023")
        = "language:python forks:>=50 created:>=2023-01-01") := by
  decide

/-- C2 (amended): the query
`"python projects with at least 50 forks created since 2023"` parses to
language `python`, `min_forks = 50`, `created_after = "2023-01-01"`, but the
base query is the leftover `"least"`, `updated_after` is also populated with
`"2023-01-01"`, the word `at` is mis-extracted as a topic, and rendering
yields
`"least language:python forks:>=50 created:>=2023-01-01 pushed:>=2023-01-01 topic:at"`. -/
theorem c2_amended_scenario :
    parse_query "python projects with at least 50 forks created since 2023"
      = { base_query := "least", min_forks := some 50, language := some "python",
          created_after := some "2023-01-01", updated_after := some "2023-01-01",
          topics := ["at"] }
    ∧ build_github_query
        (parse_query "python projects with at least 50 forks created since 2023")
      = "least language:python forks:>=50 created:>=2023-01-01 pushed:>=2023-01-01 topic:at" := by
  constructor <;> decide

/-- C3: parsing is total (the embedding is a total function) and for every
input string it returns a `ParsedQuery` whose `search_in` is non-empty and
whose populated numeric minimum fields are all non-negative. -/
theorem c3_parse_never_fails (q : String) :
    (parse_query q).search_in ≠ []
    ∧ (∀ v, (parse_query q).min_stars = some v → 0 ≤ v)
    ∧ (∀ v, (parse_query q).min_forks = some v → 0 ≤ v)
    ∧ (∀ v, (parse_query q).min_contributors = some v → 0 ≤ v) := by
  refine ⟨?_, ?_, ?_, ?_⟩
  · have hs : (parse_query q).search_in
        = extract_search_scope (stripWs (q.toList.map Char.toLower)) := rfl
    rw [hs]; unfold extract_search_scope
    split_ifs <;> simp
  · intro v hv
    exact extract_num_nonneg star_patterns _ v hv
  · intro v hv
    exact extract_num_nonneg fork_patterns _ v hv
  · intro v hv
    exact extract_num_nonneg contributor_patterns _ v hv

theorem c3_witness :
    (parse_query "at least 10 stars").search_in ≠ [] ∧ (0 : Int) ≤ 10 :=
  ⟨(c3_parse_never_fails "at least 10 stars").1,
   (c3_parse_never_fails "at least 10 stars").2.1 10 (by decide)⟩

/-- C5 counterexample: the query
`"javascript libraries with typescript support and more than 200 stars"`
does not yield `language = "javascript"` — no language pattern mentions
`libraries`, so no language is extracted at all. -/
theorem c5_counterexample :
    ¬((parse_query "javascript libraries with typescript support and more than 200 stars").language
        = some "javascript") := by
  decide

/-- C5 (amended): that query parses to `topics = ["typescript"]` and
`min_stars = 200` as claimed, but `language` stays unset. -/
theorem c5_amended_scenario :
    (parse_query "javascript libraries with typescript support and more than 200 stars").language
        = none
    ∧ (parse_query "javascript libraries with typescript support and more than 200 stars").topics
        = ["typescript"]
    ∧ (parse_query "javascript libraries with typescript support and more than 200 stars").min_stars
        = some 200 := by
  refine ⟨?_, ?_, ?_⟩ <;> decide

/-- C6 counterexample: `build_github_query` uses Python truthiness, so a
populated numeric field with value `0` emits nothing, while the spec-side
rendering (`render_spec`, one token per populated field) emits
`"stars:>=0"`. -/
theorem c6_counterexample :
    build_github_query { base_query := "", min_stars := some 0 } = ""
    ∧ render_spec { base_query := "", min_stars := some 0 } = "stars:>=0" :=
  ⟨rfl, rfl⟩

/-- C6 (amended): for every filter whose populated numeric fields are
non-zero and whose populated string fields are non-empty,
`build_github_query` emits exactly one qualifier token per populated field
in the fixed order base text, language, stars, forks, contributors, created
date, updated date, boolean flags, topics — i.e. it agrees with the
spec-side `render_spec`. -/
theorem c6_render_agrees_on_truthy (p : ParsedQuery)
    (h1 : p.min_stars ≠ some 0) (h2 : p.max_stars ≠ some 0)
    (h3 : p.min_forks ≠ some 0) (h4 : p.max_forks ≠ some 0)
    (h5 : p.min_contributors ≠ some 0) (h6 : p.max_contributors ≠ some 0)
    (h7 : p.language ≠ some "") (h8 : p.created_after ≠ some "")
    (h9 : p.updated_after ≠ some "") :
    build_github_query p = render_spec p := by
  unfold build_github_query render_spec
  rw [seg_str "language:" _ h7, seg_int "stars:>=" _ h1, seg_int "stars:<=" _ h2,
    seg_int "forks:>=" _ h3, seg_int "forks:<=" _ h4, seg_int "contributors:>=" _ h5,
    seg_int "contributors:<=" _ h6, seg_str "created:>=" _ h8, seg_str "pushed:>=" _ h9]

theorem c6_witness :
    build_github_query
        { base_query := "web framework", min_stars := some 5, language := some "python" }
      = render_spec
        { base_query := "web framework", min_stars := some 5, language := some "python" } :=
  c6_render_agrees_on_truthy _ (by decide) (by decide) (by decide) (by decide)
    (by decide) (by decide) (by decide) (by decide) (by decide)

/-- C7: the claimed enrichment formulas are exactly what the `try` block of
`compute_repo_metrics` computes (stars per day over `max(age_days, 1)`, and
the health score with every divisor guarded to be at least 1) — but the
function returns the repository unchanged, because storing the metrics
assigns fields the pydantic `GitHubRepo` model does not declare, which
raises and is swallowed by the surrounding `except`. -/
theorem c7_metrics_never_stored (now : Int) (repo : GitHubRepo) :
    compute_repo_metrics now repo = repo
    ∧ (compute_repo_metrics_attempt now repo).stars_per_day
        = (repo.stargazers_count : ℚ) / ((max (now - repo.created_at) 1 : Int) : ℚ)
    ∧ (compute_repo_metrics_attempt now repo).health_score
        = (repo.stargazers_count : ℚ) * (6 / 10) + (repo.forks_count : ℚ) * (3 / 10)
          + (1 / ((max (now - repo.updated_at) 1 : Int) : ℚ)) * 100
          - ((repo.open_issues_count : ℚ)
              / ((max (repo.stargazers_count + repo.forks_count) 1 : Nat) : ℚ)) * 50 :=
  ⟨rfl, rfl, rfl⟩

/-- C8: all five synonymous star phrasings extract `min_stars = 100`. -/
theorem c8_synonymous_phrasings :
    (parse_query "more than 100 stars").min_stars = some 100
    ∧ (parse_query "100+ stars").min_stars = some 100
    ∧ (parse_query "at least 100 stars").min_stars = some 100
    ∧ (parse_query "minimum 100 stars").min_stars = some 100
    ∧ (parse_query "100 stars or more").min_stars = some 100 := by
  refine ⟨?_, ?_, ?_, ?_, ?_⟩ <;> decide

/-- C9: with enabled platforms `{twitter, reddit}` and both fetches
successful, the gather list is `[twitterResult, redditResult]`, and the
index-keyed result loop discards the twitter result (index 0 matches no
branch) and stores the reddit result in `twitter_data`, leaving
`reddit_data` (and `github_data`) empty. -/
theorem c9_index_keyed_assignment (gh : Except Unit (List FetchItem))
    (l0 l1 : List FetchItem) (q : String) :
    gather_tasks [PlatformType.twitter, PlatformType.reddit] gh (.ok l0) (.ok l1)
        = [.ok l0, .ok l1]
    ∧ processResults [PlatformType.twitter, PlatformType.reddit] 0
        [.ok l0, .ok l1] (init_topic q [PlatformType.twitter, PlatformType.reddit])
      = { init_topic q [PlatformType.twitter, PlatformType.reddit] with twitter_data := l1 } :=
  ⟨rfl, rfl⟩

/-- C4: if every enabled source's fetch raises, the analysis succeeds with
`overall_score = 0.0` and the generated summary has an empty
`platform_stats` list. -/
theorem c4_total_failure (platforms : List PlatformType) (q : String) :
    analyze_trending_topic platforms (.error ()) (.error ()) (.error ()) q
        = .ok { init_topic q platforms with overall_score := some 0 }
    ∧ generate_analysis_summary { init_topic q platforms with overall_score := some 0 }
        = .ok { total_repos := 0, total_tweets := 0, total_reddit_posts := 0,
                top_languages := [], top_contributors := [], engagement_trends := {},
                platform_stats := [] } := by
  constructor
  · unfold analyze_trending_topic
    have hall : ∀ r ∈ gather_tasks platforms (.error ()) (.error ()) (.error ()),
        r = Except.error () := by
      intro r hr
      unfold gather_tasks at hr
      simp only [List.mem_append] at hr
      rcases hr with (hr | hr) | hr <;> (split at hr <;> simp_all)
    rw [processResults_errors platforms _ 0 _ hall]
    rfl
  · rfl

theorem isEmpty_false_of_ne {α : Type} {l : List α} (h : l ≠ []) : l.isEmpty = false := by
  cases l
  · exact absurd rfl h
  · rfl

theorem overall_two_tw_rd (q : String) (A B : List FetchItem) (sA sB : ℚ)
    (hA : A.isEmpty = false) (hB : B.isEmpty = false)
    (hsA : calculate_twitter_score A = .ok sA) (hsB : calculate_reddit_score B = .ok sB) :
    calculate_overall_score
        { init_topic q [PlatformType.github, PlatformType.twitter, PlatformType.reddit] with
          twitter_data := A, reddit_data := B }
      = .ok (((35 / 100) * sA + (25 / 100) * sB) / ((35 / 100) + (25 / 100))) := by
  unfold calculate_overall_score scoreStep init_topic
  simp only [hA, hB, hsA, hsB, List.isEmpty_nil, if_true, if_false, Bool.false_eq_true,
    ite_false, ite_true]
  rw [if_pos (by norm_num)]
  congr 1
  ring

theorem overall_two_gh_rd (q : String) (A B : List FetchItem) (sA sB : ℚ)
    (hA : A.isEmpty = false) (hB : B.isEmpty = false)
    (hsA : calculate_github_score A = .ok sA) (hsB : calculate_reddit_score B = .ok sB) :
    calculate_overall_score
        { init_topic q [PlatformType.github, PlatformType.twitter, PlatformType.reddit] with
          github_data := A, reddit_data := B }
      = .ok (((4 / 10) * sA + (25 / 100) * sB) / ((4 / 10) + (25 / 100))) := by
  unfold calculate_overall_score scoreStep init_topic
  simp only [hA, hB, hsA, hsB, List.isEmpty_nil, if_true, if_false, Bool.false_eq_true,
    ite_false, ite_true]
  rw [if_pos (by norm_num)]
  congr 1
  ring

theorem overall_two_gh_tw (q : String) (A B : List FetchItem) (sA sB : ℚ)
    (hA : A.isEmpty = false) (hB : B.isEmpty = false)
    (hsA : calculate_github_score A = .ok sA) (hsB : calculate_twitter_score B = .ok sB) :
    calculate_overall_score
        { init_topic q [PlatformType.github, PlatformType.twitter, PlatformType.reddit] with
          github_data := A, twitter_data := B }
      = .ok (((4 / 10) * sA + (35 / 100) * sB) / ((4 / 10) + (35 / 100))) := by
  unfold calculate_overall_score scoreStep init_topic
  simp only [hA, hB, hsA, hsB, List.isEmpty_nil, if_true, if_false, Bool.false_eq_true,
    ite_false, ite_true]
  rw [if_pos (by norm_num)]
  congr 1
  ring

theorem summary_two_tw_rd (q : String) (lt : List TwitterPost) (lr : List RedditPost)
    (h1 : lt ≠ []) (h2 : lr ≠ []) (sc : Option ℚ) :
    (generate_analysis_summary
        { init_topic q [PlatformType.github, PlatformType.twitter, PlatformType.reddit] with
          twitter_data := lt.map FetchItem.tw, reddit_data := lr.map FetchItem.rd,
          overall_score := sc }).map
        (fun s => s.platform_stats.map fun ps => (ps.platform, ps.total_items))
      = .ok [(PlatformType.twitter, lt.length), (PlatformType.reddit, lr.length)] := by
  have hA : (lt.map FetchItem.tw).isEmpty = false := by
    rw [isEmpty_map]; exact isEmpty_false_of_ne h1
  have hB : (lr.map FetchItem.rd).isEmpty = false := by
    rw [isEmpty_map]; exact isEmpty_false_of_ne h2
  unfold generate_analysis_summary summaryGithubStep summaryTwitterStep summaryRedditStep
    init_topic
  simp [hA, hB, asTweets_map, asRedditPosts_map, Except.map]

theorem summary_two_gh_rd (q : String) (lg : List GitHubRepo) (lr : List RedditPost)
    (h1 : lg ≠ []) (h2 : lr ≠ []) (sc : Option ℚ) :
    (generate_analysis_summary
        { init_topic q [PlatformType.github, PlatformType.twitter, PlatformType.reddit] with
          github_data := lg.map FetchItem.gh, reddit_data := lr.map FetchItem.rd,
          overall_score := sc }).map
        (fun s => s.platform_stats.map fun ps => (ps.platform, ps.total_items))
      = .ok [(PlatformType.github, lg.length), (PlatformType.reddit, lr.length)] := by
  have hA : (lg.map FetchItem.gh).isEmpty = false := by
    rw [isEmpty_map]; exact isEmpty_false_of_ne h1
  have hB : (lr.map FetchItem.rd).isEmpty = false := by
    rw [isEmpty_map]; exact isEmpty_false_of_ne h2
  unfold generate_analysis_summary summaryGithubStep summaryTwitterStep summaryRedditStep
    init_topic
  simp [hA, hB, asRepos_map, asRedditPosts_map, Except.map]

theorem summary_two_gh_tw (q : String) (lg : List GitHubRepo) (lt : List TwitterPost)
    (h1 : lg ≠ []) (h2 : lt ≠ []) (sc : Option ℚ) :
    (generate_analysis_summary
        { init_topic q [PlatformType.github, PlatformType.twitter, PlatformType.reddit] with
          github_data := lg.map FetchItem.gh, twitter_data := lt.map FetchItem.tw,
          overall_score := sc }).map
        (fun s => s.platform_stats.map fun ps => (ps.platform, ps.total_items))
      = .ok [(PlatformType.github, lg.length), (PlatformType.twitter, lt.length)] := by
  have hA : (lg.map FetchItem.gh).isEmpty = false := by
    rw [isEmpty_map]; exact isEmpty_false_of_ne h1
  have hB : (lt.map FetchItem.tw).isEmpty = false := by
    rw [isEmpty_map]; exact isEmpty_false_of_ne h2
  unfold generate_analysis_summary summaryGithubStep summaryTwitterStep summaryRedditStep
    init_topic
  simp [hA, hB, asRepos_map, asTweets_map, Except.map]

theorem analyze_eval (P : List PlatformType) (gh tw rd : Except Unit (List FetchItem))
    (q : String) (v : ℚ)
    (h : calculate_overall_score
        (processResults P 0 (gather_tasks P gh tw rd) (init_topic q P)) = .ok v) :
    analyze_trending_topic P gh tw rd q
      = .ok { processResults P 0 (gather_tasks P gh tw rd) (init_topic q P) with
              overall_score := some v } := by
  simp only [analyze_trending_topic]
  rw [h]

/-- C1: with all three sources enabled, if exactly one source's fetch raises
and the other two return non-empty well-typed item lists, the resulting
`TrendingTopic` keeps the two surviving sources' items (the failed one's
list stays empty), the generated summary has platform stats exactly for the
two survivors, and `overall_score` is `(w_a*s_a + w_b*s_b) / (w_a + w_b)`
over the two survivors with the fixed weights 0.4 (github), 0.35 (twitter),
0.25 (reddit).  One conjunct per choice of failing source. -/
theorem c1_single_failure_isolated :
    (∀ (q : String) (lt : List TwitterPost) (lr : List RedditPost),
      lt ≠ [] → lr ≠ [] →
      ∃ T, analyze_trending_topic
            [PlatformType.github, PlatformType.twitter, PlatformType.reddit]
            (.error ()) (.ok (lt.map FetchItem.tw)) (.ok (lr.map FetchItem.rd)) q = .ok T
        ∧ T.github_data = []
        ∧ T.twitter_data = lt.map FetchItem.tw
        ∧ T.reddit_data = lr.map FetchItem.rd
        ∧ T.overall_score = some (((35 / 100) * twitter_score_val lt
            + (25 / 100) * reddit_score_val lr) / ((35 / 100) + (25 / 100)))
        ∧ (generate_analysis_summary T).map
            (fun s => s.platform_stats.map fun ps => (ps.platform, ps.total_items))
          = .ok [(PlatformType.twitter, lt.length), (PlatformType.reddit, lr.length)])
    ∧ (∀ (q : String) (lg : List GitHubRepo) (lr : List RedditPost),
      lg ≠ [] → lr ≠ [] →
      ∃ T, analyze_trending_topic
            [PlatformType.github, PlatformType.twitter, PlatformType.reddit]
            (.ok (lg.map FetchItem.gh)) (.error ()) (.ok (lr.map FetchItem.rd)) q = .ok T
        ∧ T.github_data = lg.map FetchItem.gh
        ∧ T.twitter_data = []
        ∧ T.reddit_data = lr.map FetchItem.rd
        ∧ T.overall_score = some (((4 / 10) * github_score_val lg
            + (25 / 100) * reddit_score_val lr) / ((4 / 10) + (25 / 100)))
        ∧ (generate_analysis_summary T).map
            (fun s => s.platform_stats.map fun ps => (ps.platform, ps.total_items))
          = .ok [(PlatformType.github, lg.length), (PlatformType.reddit, lr.length)])
    ∧ (∀ (q : String) (lg : List GitHubRepo) (lt : List TwitterPost),
      lg ≠ [] → lt ≠ [] →
      ∃ T, analyze_trending_topic
            [PlatformType.github, PlatformType.twitter, PlatformType.reddit]
            (.ok (lg.map FetchItem.gh)) (.ok (lt.map FetchItem.tw)) (.error ()) q = .ok T
        ∧ T.github_data = lg.map FetchItem.gh
        ∧ T.twitter_data = lt.map FetchItem.tw
        ∧ T.reddit_data = []
        ∧ T.overall_score = some (((4 / 10) * github_score_val lg
            + (35 / 100) * twitter_score_val lt) / ((4 / 10) + (35 / 100)))
        ∧ (generate_analysis_summary T).map
            (fun s => s.platform_stats.map fun ps => (ps.platform, ps.total_items))
          = .ok [(PlatformType.github, lg.length), (PlatformType.twitter, lt.length)]) := by
  refine ⟨?_, ?_, ?_⟩
  · intro q lt lr h1 h2
    have hA : (lt.map FetchItem.tw).isEmpty = false := by
      rw [isEmpty_map]; exact isEmpty_false_of_ne h1
    have hB : (lr.map FetchItem.rd).isEmpty = false := by
      rw [isEmpty_map]; exact isEmpty_false_of_ne h2
    have hov := overall_two_tw_rd q (lt.map FetchItem.tw) (lr.map FetchItem.rd)
      (twitter_score_val lt) (reddit_score_val lr) hA hB
      (calculate_twitter_score_map lt) (calculate_reddit_score_map lr)
    have hT := analyze_eval
      [PlatformType.github, PlatformType.twitter, PlatformType.reddit]
      (.error ()) (.ok (lt.map FetchItem.tw)) (.ok (lr.map FetchItem.rd)) q _ hov
    exact ⟨_, hT, rfl, rfl, rfl, rfl, summary_two_tw_rd q lt lr h1 h2 _⟩
  · intro q lg lr h1 h2
    have hA : (lg.map FetchItem.gh).isEmpty = false := by
      rw [isEmpty_map]; exact isEmpty_false_of_ne h1
    have hB : (lr.map FetchItem.rd).isEmpty = false := by
      rw [isEmpty_map]; exact isEmpty_false_of_ne h2
    have hov := overall_two_gh_rd q (lg.map FetchItem.gh) (lr.map FetchItem.rd)
      (github_score_val lg) (reddit_score_val lr) hA hB
      (calculate_github_score_map lg) (calculate_reddit_score_map lr)
    have hT := analyze_eval
      [PlatformType.github, PlatformType.twitter, PlatformType.reddit]
      (.ok (lg.map FetchItem.gh)) (.error ()) (.ok (lr.map FetchItem.rd)) q _ hov
    exact ⟨_, hT, rfl, rfl, rfl, rfl, summary_two_gh_rd q lg lr h1 h2 _⟩
  · intro q lg lt h1 h2
    have hA : (lg.map FetchItem.gh).isEmpty = false := by
      rw [isEmpty_map]; exact isEmpty_false_of_ne h1
    have hB : (lt.map FetchItem.tw).isEmpty = false := by
      rw [isEmpty_map]; exact isEmpty_false_of_ne h2
    have hov := overall_two_gh_tw q (lg.map FetchItem.gh) (lt.map FetchItem.tw)
      (github_score_val lg) (twitter_score_val lt) hA hB
      (calculate_github_score_map lg) (calculate_twitter_score_map lt)
    have hT := analyze_eval
      [PlatformType.github, PlatformType.twitter, PlatformType.reddit]
      (.ok (lg.map FetchItem.gh)) (.ok (lt.map FetchItem.tw)) (.error ()) q _ hov
    exact ⟨_, hT, rfl, rfl, rfl, rfl, summary_two_gh_tw q lg lt h1 h2 _⟩

theorem c1_witness :
    ∃ T, analyze_trending_topic
        [PlatformType.github, PlatformType.twitter, PlatformType.reddit]
        (.error ()) (.ok ([sample_tweet].map FetchItem.tw))
        (.ok ([sample_rpost].map FetchItem.rd)) "rust" = .ok T
      ∧ T.github_data = []
      ∧ T.twitter_data = [sample_tweet].map FetchItem.tw
      ∧ T.reddit_data = [sample_rpost].map FetchItem.rd
      ∧ T.overall_score = some (((35 / 100) * twitter_score_val [sample_tweet]
          + (25 / 100) * reddit_score_val [sample_rpost]) / ((35 / 100) + (25 / 100)))
      ∧ (generate_analysis_summary T).map
          (fun s => s.platform_stats.map fun ps => (ps.platform, ps.total_items))
        = .ok [(PlatformType.twitter, [sample_tweet].length),
               (PlatformType.reddit, [sample_rpost].length)] :=
  c1_single_failure_isolated.1 "rust" [sample_tweet] [sample_rpost]
    (by decide) (by decide)

theorem digit_char_facts {c : Char} (h : isDg c = true) :
    c.toLower = c ∧ isWs c = false ∧ c ≠ 'c' := by
  have hb : 48 ≤ c.toNat ∧ c.toNat ≤ 57 := by
    simp only [isDg, Char.isDigit, Bool.and_eq_true, decide_eq_true_eq, ge_iff_le] at h
    obtain ⟨h1, h2⟩ := h
    rw [UInt32.le_def, BitVec.le_def] at h1 h2
    exact ⟨h1, h2⟩
  obtain ⟨h48, h57⟩ := hb
  refine ⟨?_, ?_, ?_⟩
  · unfold Char.toLower
    rw [if_neg]
    intro hc
    omega
  · have hsp : c ≠ ' ' := by intro hc; subst hc; exact absurd h48 (by decide)
    have ht : c ≠ '\t' := by intro hc; subst hc; exact absurd h48 (by decide)
    have hn : c ≠ '\n' := by intro hc; subst hc; exact absurd h48 (by decide)
    have hr : c ≠ '\r' := by intro hc; subst hc; exact absurd h48 (by decide)
    simp [isWs, hsp, ht, hn, hr]
    constructor <;> omega
  · intro hc; subst hc; exact absurd h57 (by decide)

theorem searchM_cons {α : Type} (m : List Char → Option α) (c : Char) (cs : List Char) :
    searchM m (c :: cs)
      = match m (c :: cs) with
        | some x => some x
        | none => searchM m cs := rfl

theorem dateLoop_cons_none (p : List Char → Option (List Char × List Char))
    (ps : List (List Char → Option (List Char × List Char))) (cs : List Char)
    (h : searchM p cs = none) : dateLoop (p :: ps) cs = dateLoop ps cs := by
  rw [dateLoop, h]

theorem dateLoop_cons_found (p : List Char → Option (List Char × List Char))
    (ps : List (List Char → Option (List Char × List Char))) (cs : List Char)
    (g r : List Char) (s : String) (h : searchM p cs = some (g, r))
    (h2 : dateResult g = some s) : dateLoop (p :: ps) cs = some s := by
  rw [dateLoop, h]
  simp [h2]

set_option maxHeartbeats 1000000 in
/-- C10: for any four-digit year, a query that is exactly the single date
phrase `created since <year>` populates both `created_after` and
`updated_after` with `<year>-01-01`, and symmetrically a query that is
exactly `updated since <year>` also populates `created_after` — the shared
date pattern table contains both the created and the updated patterns, and
the updated extraction merely substitutes `created` with `updated` before
rescanning. -/
theorem c10_shared_date_patterns (c1 c2 c3 c4 : Char)
    (h1 : isDg c1 = true) (h2 : isDg c2 = true) (h3 : isDg c3 = true) (h4 : isDg c4 = true) :
    ((parse_query (String.mk (("created since ".toList) ++ [c1, c2, c3, c4]))).created_after
        = some (String.mk ([c1, c2, c3, c4] ++ ("-01-01".toList)))
      ∧ (parse_query (String.mk (("created since ".toList) ++ [c1, c2, c3, c4]))).updated_after
        = some (String.mk ([c1, c2, c3, c4] ++ ("-01-01".toList))))
    ∧ ((parse_query (String.mk (("updated since ".toList) ++ [c1, c2, c3, c4]))).created_after
        = some (String.mk ([c1, c2, c3, c4] ++ ("-01-01".toList)))
      ∧ (parse_query (String.mk (("updated since ".toList) ++ [c1, c2, c3, c4]))).updated_after
        = some (String.mk ([c1, c2, c3, c4] ++ ("-01-01".toList)))) := by
  obtain ⟨hl1, hw1, hne1⟩ := digit_char_facts h1
  obtain ⟨hl2, hw2, hne2⟩ := digit_char_facts h2
  obtain ⟨hl3, hw3, hne3⟩ := digit_char_facts h3
  obtain ⟨hl4, hw4, hne4⟩ := digit_char_facts h4
  have hwc : isWs 'c' = false := by decide
  have hwu : isWs 'u' = false := by decide
  have hq1 : stripWs (((String.mk (("created since ".toList)
      ++ [c1, c2, c3, c4])).toList).map Char.toLower)
      = ("created since ".toList) ++ [c1, c2, c3, c4] := by
    have hpre : ("created since ".toList).map Char.toLower = "created since ".toList := by
      decide
    rw [show (String.mk (("created since ".toList) ++ [c1, c2, c3, c4])).toList
        = ("created since ".toList) ++ [c1, c2, c3, c4] from rfl]
    rw [show (("created since ".toList) ++ [c1, c2, c3, c4]).map Char.toLower
        = (("created since ".toList).map Char.toLower) ++ [c1, c2, c3, c4].map Char.toLower
      from List.map_append Char.toLower _ _]
    simp only [hpre, List.map_cons, List.map_nil, hl1, hl2, hl3, hl4]
    simp [stripWs, lstripWs, takeW, List.cons_append, List.reverse_append, hwc, hw4]
  have hq2 : stripWs (((String.mk (("updated since ".toList)
      ++ [c1, c2, c3, c4])).toList).map Char.toLower)
      = ("updated since ".toList) ++ [c1, c2, c3, c4] := by
    have hpre : ("updated since ".toList).map Char.toLower = "updated since ".toList := by
      decide
    rw [show (String.mk (("updated since ".toList) ++ [c1, c2, c3, c4])).toList
        = ("updated since ".toList) ++ [c1, c2, c3, c4] from rfl]
    rw [show (("updated since ".toList) ++ [c1, c2, c3, c4]).map Char.toLower
        = (("updated since ".toList).map Char.toLower) ++ [c1, c2, c3, c4].map Char.toLower
      from List.map_append Char.toLower _ _]
    simp only [hpre, List.map_cons, List.map_nil, hl1, hl2, hl3, hl4]
    simp [stripWs, lstripWs, takeW, List.cons_append, List.reverse_append, hwu, hw4]
  have hres : dateResult [c1, c2, c3, c4]
      = some (String.mk ([c1, c2, c3, c4] ++ ("-01-01".toList))) := by
    simp [dateResult, startsD4, exactN, h1, h2, h3, h4]
  have hs1 : searchM datePat1 (("created since ".toList) ++ [c1, c2, c3, c4])
      = some ([c1, c2, c3, c4], []) := by
    simp [searchM_cons, datePat1, dateAlt, litM, altLits, exactN, h1, h2, h3, h4,
      List.cons_append]
  have hn1 : searchM datePat1 (("updated since ".toList) ++ [c1, c2, c3, c4]) = none := by
    simp [searchM_cons, searchM, datePat1, dateAlt, litM, altLits, exactN,
      hne1, hne2, hne3, hne4, List.cons_append]
  have hn2 : searchM datePat2 (("updated since ".toList) ++ [c1, c2, c3, c4]) = none := by
    simp [searchM_cons, searchM, datePat2, dateAlt, litM, altLits, exactN,
      hne1, hne2, hne3, hne4, List.cons_append]
  have hs3 : searchM datePat3 (("updated since ".toList) ++ [c1, c2, c3, c4])
      = some ([c1, c2, c3, c4], []) := by
    simp [searchM_cons, datePat3, dateAlt, litM, altLits, exactN, h1, h2, h3, h4,
      List.cons_append]
  have hecd1 : extract_created_date (("created since ".toList) ++ [c1, c2, c3, c4])
      = some (String.mk ([c1, c2, c3, c4] ++ ("-01-01".toList))) := by
    unfold extract_created_date date_patterns
    exact dateLoop_cons_found _ _ _ _ _ _ hs1 hres
  have hecd2 : extract_created_date (("updated since ".toList) ++ [c1, c2, c3, c4])
      = some (String.mk ([c1, c2, c3, c4] ++ ("-01-01".toList))) := by
    unfold extract_created_date date_patterns
    rw [dateLoop_cons_none _ _ _ hn1, dateLoop_cons_none _ _ _ hn2]
    exact dateLoop_cons_found _ _ _ _ _ _ hs3 hres
  have hrep1 : replaceAll ("created".toList) ("updated".toList)
      (("created since ".toList) ++ [c1, c2, c3, c4])
      = ("updated since ".toList) ++ [c1, c2, c3, c4] := by
    have hlen : ((("created since ".toList) ++ [c1, c2, c3, c4]).length + 1) = 19 := by
      simp
    rw [replaceAll, hlen]
    simp [replaceAllF, litM, List.cons_append, hne1, hne2, hne3, hne4]
  have hrep2 : replaceAll ("created".toList) ("updated".toList)
      (("updated since ".toList) ++ [c1, c2, c3, c4])
      = ("updated since ".toList) ++ [c1, c2, c3, c4] := by
    have hlen : ((("updated since ".toList) ++ [c1, c2, c3, c4]).length + 1) = 19 := by
      simp
    rw [replaceAll, hlen]
    simp [replaceAllF, litM, List.cons_append, hne1, hne2, hne3, hne4]
  refine ⟨⟨?_, ?_⟩, ?_, ?_⟩
  · show extract_created_date (stripWs (((String.mk (("created since ".toList)
        ++ [c1, c2, c3, c4])).toList).map Char.toLower)) = _
    rw [hq1]
    exact hecd1
  · show extract_updated_date (stripWs (((String.mk (("created since ".toList)
        ++ [c1, c2, c3, c4])).toList).map Char.toLower)) = _
    rw [hq1]
    unfold extract_updated_date
    rw [hrep1]
    exact hecd2
  · show extract_created_date (stripWs (((String.mk (("updated since ".toList)
        ++ [c1, c2, c3, c4])).toList).map Char.toLower)) = _
    rw [hq2]
    exact hecd2
  · show extract_updated_date (stripWs (((String.mk (("updated since ".toList)
        ++ [c1, c2, c3, c4])).toList).map Char.toLower)) = _
    rw [hq2]
    unfold extract_updated_date
    rw [hrep2]
    exact hecd2

theorem c10_witness :
    (parse_query (String.mk (("created since ".toList) ++ ['2', '0', '2', '3']))).created_after
        = some (String.mk (['2', '0', '2', '3'] ++ ("-01-01".toList)))
      ∧ (parse_query (String.mk (("created since ".toList) ++ ['2', '0', '2', '3']))).updated_after
        = some (String.mk (['2', '0', '2', '3'] ++ ("-01-01".toList))) :=
  (c10_shared_date_patterns '2' '0' '2' '3'
    (by decide) (by decide) (by decide) (by decide)).1
